import Mathlib

/-!
Verification of `riko.lib.collections` (SyncPipe / SyncCollection executor).

The definitions below are a shallow embedding of `src/riko/lib/collections.py`.
Python sequences that matter to the executor are modelled by `PySeq` (a
re-iterable concrete `list` versus a one-shot generator/iterator), worker
pools by the `Pool` record (a state machine recording `close`/`join` calls),
and stage modules by `Module` (a per-item "processor" or a whole-stream
"operator", as resolved from the module's `pipe.func_dict['sub_type']`).
Stage functions themselves are external collaborators and appear as opaque
Lean functions already bound to their configuration (the Python code binds
`self.kwargs` with `functools.partial`).

`riko.lib.utils.multiplex` and `riko.lib.utils.multi_try` are not part of the
given sources; they are modelled from the spec where noted.
-/

namespace Riko

/-- A Python value as it appears in a source-descriptor dict
(strings and numbers suffice for the claims). -/
inductive PyVal where
  | str (s : String)
  | num (n : Nat)
deriving DecidableEq, Repr

/-- A Python dict with string keys, as an association list in insertion
order (first binding of a key is its value, as with `dict`). -/
abbrev Dict := List (String × PyVal)

/-- Lookup `d[k]`: `d.get(k)` returning `None` when absent. -/
def Dict.get (d : Dict) (k : String) : Option PyVal :=
  (d.find? (fun kv => kv.1 == k)).map (fun kv => kv.2)

/-- Python `d.get(k, v)`: lookup with a default. -/
def Dict.getD (d : Dict) (k : String) (v : PyVal) : PyVal :=
  (Dict.get d k).getD v

/-- Assignment `d[k] = v`: overwrite the binding of `k` in place, appending when absent. -/
def Dict.set (d : Dict) (k : String) (v : PyVal) : Dict :=
  if (d.find? (fun kv => kv.1 == k)).isSome then
    d.map (fun kv => if kv.1 == k then (k, v) else kv)
  else d ++ [(k, v)]

/-- Python `d.update(other)`: set every binding of `other` into `d`. -/
def Dict.update (d other : Dict) : Dict :=
  other.foldl (fun acc kv => Dict.set acc kv.1 kv.2) d

/-- A Python iterable as stored in `SyncPipe.source`: either a re-iterable
concrete `list`, or a one-shot generator/iterator holding its remaining
items (iterating it exhausts it). -/
inductive PySeq (α : Type) where
  | list (l : List α)
  | iter (l : List α)
deriving DecidableEq, Repr

/-- Iterate a `PySeq` to the end: yields its items and the sequence's state
afterwards (a `list` is unchanged, an `iter` is exhausted). -/
def PySeq.iterate : PySeq α → List α × PySeq α
  | .list l => (l, .list l)
  | .iter l => (l, .iter [])

/-- Python truthiness of an optional sequence: `None` and the empty `list`
are falsy; a generator object is always truthy, even when exhausted. -/
def pySeqTruthy : Option (PySeq α) → Bool
  | none => false
  | some (.list l) => !l.isEmpty
  | some (.iter _) => true

/-- Iterating `self.source`: `None` is not iterable (`TypeError`), any
`PySeq` yields its items and its post-iteration state. -/
def iterateE : Option (PySeq α) → Except String (List α × Option (PySeq α))
  | none => Except.error "TypeError: NoneType object is not iterable"
  | some s => Except.ok (s.iterate.1, some s.iterate.2)

/-- An object probed by `lenish`: `len` is `some n` when `len(x)` returns
`n` (raising `TypeError` otherwise), `hint` is `some n` when the object
exposes `__length_hint__` returning `n` (an `AttributeError` otherwise). -/
structure PySource where
  len : Option Nat
  hint : Option Nat
deriving DecidableEq, Repr

/-- Modelled from the spec: `riko.lib.utils.multi_try` is not under the
given sources. Per the spec's `lengthEstimate` contract it applies each
attempt in order to the source, returning the first successful result and
the default when every attempt raises its paired, caught error; an attempt
that may raise is modelled as returning `Option`. -/
def multi_try {σ : Type} (source : σ) (zipped : List (σ → Option Nat))
    (default : Nat) : Nat :=
  match zipped with
  | [] => default
  | f :: rest =>
    match f source with
    | some n => n
    | none => multi_try source rest default

/-- src `lenish(source, default=50)`: try `len`, then `__length_hint__`,
else the default, via `multi_try` with the caught errors
`(TypeError, AttributeError)`. -/
def lenish (source : PySource) (default : Nat := 50) : Nat :=
  multi_try source [fun s => s.len, fun s => s.hint] default

/-- The sizing capabilities of a concrete Python list: `len` succeeds, and
a list object exposes no `__length_hint__` attribute. -/
def PySource.ofList (l : List α) : PySource :=
  PySource.mk (some l.length) none

/-- The `PySource` capabilities of a pipe's `self.source`: a concrete list
supports `len` (Python lists expose no `__length_hint__`); `None` and
generators support neither, so `lenish` falls back to its default. -/
def pySeqSizing : Option (PySeq α) → PySource
  | some (.list l) => PySource.ofList l
  | _ => PySource.mk none none

/-- The call `lenish(self.source)` as used by `SyncPipe.__init__`. -/
def lenishSeq (source : Option (PySeq α)) : Nat :=
  lenish (pySeqSizing source)

/-- src `get_worker_cnt(length, threads=True)`; `cpu_count()` is the
ambient `cpu` parameter, and `length or 1` maps `0` to `1`. -/
def get_worker_cnt (cpu : Nat) (length : Nat) (threads : Bool := true) : Nat :=
  let multiplier := if threads then 2 else 1
  min (if length = 0 then 1 else length) (cpu * multiplier)

/-- src `get_chunksize(length, workers)`: `(length // (workers * 4)) or 1`. -/
def get_chunksize (length workers : Nat) : Nat :=
  let c := length / (workers * 4)
  if c = 0 then 1 else c

/-- Python `x or y` for an optional number: Python treats both `None` and `0` as
falsy (`workers or get_worker_cnt(...)`, `chunksize or get_chunksize(...)`). -/
def orTruthy (x : Option Nat) (y : Nat) : Nat :=
  match x with
  | some n => if n = 0 then y else n
  | none => y

/-- A worker pool's run state: `run` accepts work, `closed` after `close()`. -/
inductive PoolState where
  | run
  | closed
deriving DecidableEq, Repr

/-- A `multiprocessing(.dummy)` pool, tracking whether it is thread-based,
its worker count, its state, and how many times `close()` and `join()`
were invoked on it. -/
structure Pool where
  threadBased : Bool
  workers : Nat
  state : PoolState
  closes : Nat
  joins : Nat
deriving DecidableEq, Repr

/-- A freshly created pool (`ThreadPool(workers)` or `Pool(workers)`). -/
def mkPool (threadBased : Bool) (workers : Nat) : Pool :=
  { threadBased := threadBased, workers := workers,
    state := PoolState.run, closes := 0, joins := 0 }

/-- Python `pool.close()`: stop accepting work.  One invocation recorded. -/
def Pool.close (pl : Pool) : Pool :=
  { pl with state := PoolState.closed, closes := pl.closes + 1 }

/-- Python `pool.join()`: wait for submitted work.  In the embedding it is only
invoked right after `close`, where Python's own state assertion holds. -/
def Pool.join (pl : Pool) : Pool :=
  { pl with joins := pl.joins + 1 }

/-- A resolved stage module: the classification read from
`pipe.func_dict['sub_type']` decides whether the bound `pipe` callable is
applied per item ("processor") or once to the whole source ("operator"). -/
inductive Module (α : Type) where
  | processor (f : α → List α)
  | operator (g : List α → List α)

/-- The flag `self.processor`: whether the resolved pipe is a processor. -/
def Module.isProcessor : Module α → Bool
  | .processor _ => true
  | .operator _ => false

/-- src `listpipe(args)`: unpack `(source, pipeline)` and materialize
`list(pipeline(source))`; a stage's per-item output is already a list
here, so materialization is the identity on its value. -/
def listpipe (args : α × (α → List α)) : List α :=
  args.2 args.1

/-- Modelled from the spec: `riko.lib.utils.multiplex` is not under the
given sources. Per the spec it flattens exactly one level of a sequence of
per-item result sequences (the map-like passthrough case cannot arise
here, where every element is itself a sequence of items). -/
def multiplex (l : List (List α)) : List α :=
  l.flatten

/-- The kind of callable stored in `self.map` by `SyncPipe.__init__`:
plain `itertools.imap`, `pool.imap`, or `pool.imap_unordered`. -/
inductive MapKind where
  | seq
  | poolOrdered
  | poolUnordered
deriving DecidableEq, Repr

/-- The keyword arguments of `SyncPipe.__init__` that the executor itself
consumes (stage configuration such as `conf` is already bound into the
stage function).  Defaults mirror the Python `kwargs.get` calls; `ordered`
is an `Option Bool` because `kwargs.get('ordered')` distinguishes an
absent key (`None`, falsy) from an explicit flag. -/
structure Args (α : Type) where
  source : Option (PySeq α) := none
  workers : Option Nat := none
  parallel : Bool := false
  listize : Bool := false
  threads : Bool := true
  reuse_pool : Bool := true
  pool : Option Pool := none
  ordered : Option Bool := none
  chunksize : Option Nat := none

/-- The state of a constructed `SyncPipe`: the fields `__init__` stores.
`createdPool` is ghost bookkeeping recording whether the pool handle was
created by this constructor call (as opposed to supplied via `pool=`). -/
structure SyncPipe (α : Type) where
  name : String
  parallel : Bool
  source : Option (PySeq α)
  threads : Bool
  reuse_pool : Bool
  pool : Option Pool
  module : Module α
  workers : Option Nat
  chunksize : Option Nat
  mapKind : MapKind
  createdPool : Bool

/-- The line `if kwargs.pop('listize', False) and source: self.source = list(source)`:
materialize a truthy source into a concrete list when requested, else store
it unchanged. -/
def applyListize (listize : Bool) (source : Option (PySeq α)) : Option (PySeq α) :=
  if listize && pySeqTruthy source then
    source.map (fun s => PySeq.list s.iterate.1)
  else source

/-- Constructor `SyncPipe.__init__` after the module lookup succeeded, with the module
passed explicitly: stores the (possibly listized) source and the flags,
and when a parallel processor is requested sizes and creates (or adopts)
the pool and selects the pool map; otherwise falls back to the sequential
`imap`. -/
def SyncPipe.initWith (cpu : Nat) (nm : String) (md : Module α) (a : Args α) :
    SyncPipe α :=
  let source := applyListize a.listize a.source
  if a.parallel && md.isProcessor then
    let length := lenishSeq source
    let workers := orTruthy a.workers (get_worker_cnt cpu length a.threads)
    let chunksize := orTruthy a.chunksize (get_chunksize length workers)
    let pool := a.pool.getD (mkPool a.threads workers)
    { name := nm, parallel := a.parallel, source := source, threads := a.threads,
      reuse_pool := a.reuse_pool, pool := some pool, module := md,
      workers := some workers, chunksize := some chunksize,
      mapKind := if a.ordered.getD false then MapKind.poolOrdered
                 else MapKind.poolUnordered,
      createdPool := a.pool.isNone }
  else
    { name := nm, parallel := a.parallel, source := source, threads := a.threads,
      reuse_pool := a.reuse_pool, pool := a.pool, module := md,
      workers := a.workers, chunksize := a.chunksize,
      mapKind := MapKind.seq, createdPool := false }

/-- Constructor `SyncPipe.__init__` proper: `import_module('riko.modules.pipe%s' % name)`
resolves the stage through the ambient registry and fails fast
(`ImportError`) on an unknown name. -/
def SyncPipe.init (registry : String → Option (Module α)) (cpu : Nat)
    (nm : String) (a : Args α) : Except String (SyncPipe α) :=
  match registry nm with
  | none => Except.error ("ImportError: No module named pipe" ++ nm)
  | some md => Except.ok (SyncPipe.initWith cpu nm md a)

/-- Property `SyncPipe.output`, forced to a list (as `list(self.output)` does).
`sched` is the scheduler's choice of delivery order for
`pool.imap_unordered`; the other paths ignore it.  Returns the produced
items together with the executor's state afterwards (its source may have
been consumed, its pool closed and joined when `reuse_pool` is off). -/
def SyncPipe.output (sched : List (List α) → List (List α)) (p : SyncPipe α) :
    Except String (List α × SyncPipe α) :=
  match p.module with
  | Module.processor f =>
    if p.parallel then
      match iterateE p.source with
      | Except.error e => Except.error e
      | Except.ok (items, source2) =>
        match p.pool with
        | none => Except.error "AttributeError: NoneType has no pool map"
        | some pl =>
          if pl.state = PoolState.run then
            let blocks := items.map (fun x => listpipe (x, f))
            let delivered :=
              if p.mapKind = MapKind.poolUnordered then sched blocks else blocks
            let pl2 := if p.reuse_pool then pl else Pool.join (Pool.close pl)
            Except.ok (multiplex delivered,
                       { p with source := source2, pool := some pl2 })
          else Except.error "AssertionError: pool not running"
    else
      match iterateE p.source with
      | Except.error e => Except.error e
      | Except.ok (items, source2) =>
        Except.ok (multiplex (items.map f), { p with source := source2 })
  | Module.operator g =>
    match iterateE p.source with
    | Except.error e => Except.error e
    | Except.ok (items, source2) =>
      Except.ok (g items, { p with source := source2 })

/-- The kwargs dict `__getattr__` builds for the next link: parallel,
threads, workers and the reuse policy are propagated, and the pool handle
is `self.pool if self.reuse_pool else None`; the prior `output` sequence
`out` becomes the next upstream source (a one-shot generator). -/
def chainArgs (p : SyncPipe α) (out : List α) : Args α :=
  { source := some (PySeq.iter out), workers := p.workers,
    parallel := p.parallel, threads := p.threads,
    reuse_pool := p.reuse_pool,
    pool := if p.reuse_pool then p.pool else none }

/-- Method `SyncPipe.__getattr__(name)`: fluent chaining.  Builds the next link's
kwargs, evaluates this executor's `output`, and constructs the next
`SyncPipe` with that output sequence as its upstream source. -/
def SyncPipe.chain (registry : String → Option (Module α)) (cpu : Nat)
    (sched : List (List α) → List (List α)) (p : SyncPipe α) (nm : String) :
    Except String (SyncPipe α) :=
  match p.output sched with
  | Except.error e => Except.error e
  | Except.ok (out, _) => SyncPipe.init registry cpu nm (chainArgs p out)

/-- Whether a stored source is a materialized concrete list (as opposed to
`None` or a one-shot iterator). -/
def isMaterialized : Option (PySeq α) → Bool
  | some (.list _) => true
  | _ => false

/-- Projection of a pool handle to its observable lifecycle facts:
`(close invocations, join invocations, state)`. -/
def poolStats : Option Pool → Option (Nat × Nat × PoolState)
  | none => none
  | some pl => some (pl.closes, pl.joins, pl.state)

/-- Constructor `PyCollection.__init__`: stores the sources, pairs each source with the
configured `sleep` (`kwargs.get('sleep', 0)`) into `zargs`, estimates the
length with `lenish`, and sizes the workers with `get_worker_cnt`. -/
structure PyCollection where
  sources : List Dict
  parallel : Bool
  workers : Nat
  sleep : PyVal
  zargs : List (Dict × PyVal)
  length : Nat

def PyCollection.init (cpu : Nat) (sources : List Dict)
    (parallel : Bool := false) (workers : Option Nat := none)
    (sleep : Option PyVal := none) : PyCollection :=
  let sl := sleep.getD (PyVal.num 0)
  let length := lenish (PySource.mk (some sources.length) none)
  { sources := sources, parallel := parallel,
    workers := orTruthy workers (get_worker_cnt cpu length true),
    sleep := sl, zargs := sources.map (fun s => (s, sl)), length := length }

/-- Constructor `SyncCollection.__init__`: the `PyCollection` state plus, when
parallel, a chunk size and an owned thread pool whose unordered map is
used for the fan-out. -/
structure SyncCollection where
  base : PyCollection
  chunksize : Option Nat
  pool : Option Pool
  unorderedMap : Bool

def SyncCollection.init (cpu : Nat) (sources : List Dict)
    (parallel : Bool := false) (workers : Option Nat := none)
    (sleep : Option PyVal := none) : SyncCollection :=
  let base := PyCollection.init cpu sources parallel workers sleep
  if base.parallel then
    { base := base, chunksize := some (get_chunksize base.length base.workers),
      pool := some (mkPool true base.workers), unorderedMap := true }
  else
    { base := base, chunksize := none, pool := none, unorderedMap := false }

/-- The stage invocation `getpipe` performs: the stage name handed to
`SyncPipe` and the dict passed as its `conf` keyword. -/
structure StageCall where
  ptype : PyVal
  conf : Dict
deriving DecidableEq, Repr

/-- The configuration `getpipe` builds locally:
`conf = {'sleep': sleep}; conf.update(source)`. -/
def getpipeConf (source : Dict) (sleep : PyVal) : Dict :=
  Dict.update [("sleep", sleep)] source

/-- src `getpipe(args)`: unpacks `(source, sleep)`, takes the stage name
from `source['type']` (default `'fetch'`), builds `conf` — and then calls
`pipe(ptype, conf=source)`, passing the original `source` dict (the local
`conf` it just built is dead). -/
def getpipe (args : Dict × PyVal) : StageCall :=
  let source := args.1
  let sleep := args.2
  let ptype := Dict.getD source "type" (PyVal.str "fetch")
  let _conf := getpipeConf source sleep
  { ptype := ptype, conf := source }

/-! Concrete stage modules and registry used to evaluate the executor on
small inputs. -/

/-- A pure per-item stage: emits the successor of each item. -/
def incrF : Nat → List Nat := fun n => [n + 1]

/-- A processor module built from `incrF`. -/
def mdIncr : Module Nat := Module.processor incrF

/-- A whole-stream operator module: reverses its input collection. -/
def mdRev : Module Nat := Module.operator (fun l => l.reverse)

/-- A small stage registry resolving two names. -/
def regDemo : String → Option (Module Nat) :=
  fun nm =>
    if nm = "incr" then some mdIncr
    else if nm = "rev" then some mdRev
    else none

/-! ## C8 — worker-count policy -/

/-- C8: for every non-negative length and both thread modes,
`get_worker_cnt(length, threaded) = min(length or 1, cpuCount * (2 if
threaded else 1))`; in particular it is `1` at length `0` (for any real
`cpuCount ≥ 1`), `min 100 (2·cpu)` threaded at length 100, and
`min 100 cpu` unthreaded at length 100. -/
theorem C8_worker_cnt (cpu length : Nat) (threaded : Bool) (hcpu : 1 ≤ cpu) :
    get_worker_cnt cpu length threaded
      = min (if length = 0 then 1 else length)
            (cpu * (if threaded then 2 else 1)) ∧
    get_worker_cnt cpu 0 threaded = 1 ∧
    get_worker_cnt cpu 100 true = min 100 (2 * cpu) ∧
    get_worker_cnt cpu 100 false = min 100 cpu := by
  refine ⟨rfl, ?_, ?_, ?_⟩ <;>
    · simp only [get_worker_cnt]
      cases threaded <;> simp <;> omega

/-- Witness for C8 at `cpu = 4`, `length = 7`, threaded. -/
theorem C8_worker_cnt_witness :
    get_worker_cnt 4 7 true
      = min (if 7 = 0 then 1 else 7) (4 * (if true then 2 else 1)) ∧
    get_worker_cnt 4 0 true = 1 ∧
    get_worker_cnt 4 100 true = min 100 (2 * 4) ∧
    get_worker_cnt 4 100 false = min 100 4 :=
  C8_worker_cnt 4 7 true (by decide)

/-! ## C9 — length estimation -/

/-- C9: `lenish` tries the exact count first, then the length hint, else
the default (50 unless overridden), and never fails; on a list of 7 items
it returns 7, on a hint-only object with hint 4 it returns 4, and on an
object with neither capability it returns 50.  (`multi_try` is modelled
from the spec; `lenish` itself is from the source.) -/
theorem C9_lenish (s : PySource) (d : Nat) :
    lenish s d = s.len.getD (s.hint.getD d) ∧
    lenish (PySource.ofList [0, 1, 2, 3, 4, 5, 6]) = 7 ∧
    lenish (PySource.mk none (some 4)) = 4 ∧
    lenish (PySource.mk none none) = 50 := by
  refine ⟨?_, rfl, rfl, rfl⟩
  cases h1 : s.len <;> cases h2 : s.hint <;>
    simp [lenish, multi_try, h1, h2]

/-! ## C10 — listize materialization -/

/-- C10: `SyncPipe.__init__` materializes the upstream source into a
concrete list exactly when `listize` is set and the source is truthy
(`None` and the empty list are falsy; a generator is truthy); in every
other case the source is stored unchanged. -/
theorem C10_listize (cpu : Nat) (nm : String) (md : Module α) (a : Args α) :
    (SyncPipe.initWith cpu nm md a).source
      = (if a.listize && pySeqTruthy a.source
         then a.source.map (fun s => PySeq.list s.iterate.1)
         else a.source) ∧
    pySeqTruthy (none : Option (PySeq α)) = false ∧
    pySeqTruthy (some (PySeq.list ([] : List α))) = false ∧
    pySeqTruthy (some (PySeq.iter ([] : List α))) = true := by
  refine ⟨?_, rfl, rfl, rfl⟩
  simp only [SyncPipe.initWith, applyListize]
  split <;> rfl

/-! ## C7 — collection sleep pacing (code bug) -/

/-- C7 (code bug): `SyncCollection` pairs every source with the configured
sleep in `zargs`, and `getpipe` takes the stage name from the source's
`type` field (default `"fetch"`) — but it passes the original `source`
dict as the stage `conf`, not the `conf = {'sleep': sleep}; conf.update(source)`
it just built, so the stage never receives the sleep delay. -/
theorem C7_getpipe_drops_sleep :
    (SyncCollection.init 4 [[("url", PyVal.str "feed.xml")]] false none
        (some (PyVal.num 3))).base.zargs
      = [([("url", PyVal.str "feed.xml")], PyVal.num 3)] ∧
    getpipe ([("url", PyVal.str "feed.xml")], PyVal.num 3)
      = { ptype := PyVal.str "fetch", conf := [("url", PyVal.str "feed.xml")] } ∧
    Dict.get (getpipe ([("url", PyVal.str "feed.xml")], PyVal.num 3)).conf
        "sleep" = none ∧
    Dict.get (getpipeConf [("url", PyVal.str "feed.xml")] (PyVal.num 3))
        "sleep" = some (PyVal.num 3) ∧
    Dict.get (getpipeConf [("url", PyVal.str "feed.xml")] (PyVal.num 3))
        "url" = some (PyVal.str "feed.xml") ∧
    (getpipe ([("type", PyVal.str "fetchdata")], PyVal.num 3)).ptype
      = PyVal.str "fetchdata" :=
  ⟨rfl, rfl, rfl, rfl, rfl, rfl⟩

/-! ## C5 — ordering default for parallel processor stages -/

/-- C5 counterexample: a parallel Processor stage constructed WITHOUT an
`ordered` argument selects the unordered pool map
(`pool.imap_unordered`), not the ordered one the claim asserts. -/
theorem C5_default_unordered_counterexample :
    (SyncPipe.initWith 4 "incr" mdIncr
        { source := some (PySeq.list [1, 2, 3]), parallel := true }).mapKind
      = MapKind.poolUnordered ∧
    MapKind.poolUnordered ≠ MapKind.poolOrdered :=
  ⟨rfl, by decide⟩

/-- C5 (amended): for a parallel Processor stage, the ordered pool map is
selected exactly when the caller passes a truthy `ordered` flag; when the
`ordered` argument is absent, delivery is unordered. -/
theorem C5_ordering_opt_in (cpu : Nat) (nm : String) (f : α → List α)
    (a : Args α) (hpar : a.parallel = true) :
    ((SyncPipe.initWith cpu nm (Module.processor f) a).mapKind
        = MapKind.poolOrdered ↔ a.ordered.getD false = true) ∧
    (a.ordered = none →
      (SyncPipe.initWith cpu nm (Module.processor f) a).mapKind
        = MapKind.poolUnordered) := by
  simp only [SyncPipe.initWith, Module.isProcessor, hpar, Bool.true_and]
  cases h : a.ordered with
  | none => simp
  | some b => cases b <;> simp

/-- Witness for C5 (amended) at a concrete parallel pipe. -/
theorem C5_ordering_opt_in_witness :
    ((SyncPipe.initWith 4 "incr" (Module.processor incrF)
        { source := some (PySeq.list [1, 2, 3]), parallel := true }).mapKind
        = MapKind.poolOrdered
      ↔ (({ source := some (PySeq.list [1, 2, 3]), parallel := true }
            : Args Nat)).ordered.getD false = true) ∧
    ((({ source := some (PySeq.list [1, 2, 3]), parallel := true }
          : Args Nat)).ordered = none →
      (SyncPipe.initWith 4 "incr" (Module.processor incrF)
        { source := some (PySeq.list [1, 2, 3]), parallel := true }).mapKind
        = MapKind.poolUnordered) :=
  C5_ordering_opt_in 4 "incr" incrF
    { source := some (PySeq.list [1, 2, 3]), parallel := true } rfl

/-! Helper lemmas about the constructor and the source handling, shared by
the claim theorems below. -/

/-- Listizing a concrete list stores a concrete list with the same items. -/
theorem applyListize_list (li : Bool) (l : List α) :
    applyListize li (some (PySeq.list l)) = some (PySeq.list l) := by
  cases li with
  | false => rfl
  | true =>
    simp only [applyListize, pySeqTruthy, Bool.true_and]
    split <;> rfl

/-- Whatever `listize` does, the items produced by iterating the stored
source are the items of the given source. -/
theorem applyListize_iterate (li : Bool) (s : PySeq α) :
    ∃ s2, applyListize li (some s) = some s2 ∧ s2.iterate.1 = s.iterate.1 := by
  cases li with
  | false => exact ⟨s, rfl, rfl⟩
  | true =>
    cases s with
    | list l =>
      simp only [applyListize, pySeqTruthy, Bool.true_and]
      split
      · exact ⟨_, rfl, rfl⟩
      · exact ⟨_, rfl, rfl⟩
    | iter l => exact ⟨PySeq.list l, rfl, rfl⟩

/-- Both constructor branches store `applyListize` of the given source. -/
theorem initWith_source (cpu : Nat) (nm : String) (md : Module α) (a : Args α) :
    (SyncPipe.initWith cpu nm md a).source = applyListize a.listize a.source := by
  simp only [SyncPipe.initWith]; split <;> rfl

/-- Both constructor branches store the requested `parallel` flag. -/
theorem initWith_parallel (cpu : Nat) (nm : String) (md : Module α) (a : Args α) :
    (SyncPipe.initWith cpu nm md a).parallel = a.parallel := by
  simp only [SyncPipe.initWith]; split <;> rfl

/-- Both constructor branches store the requested `threads` flag. -/
theorem initWith_threads (cpu : Nat) (nm : String) (md : Module α) (a : Args α) :
    (SyncPipe.initWith cpu nm md a).threads = a.threads := by
  simp only [SyncPipe.initWith]; split <;> rfl

/-- Both constructor branches store the requested `reuse_pool` flag. -/
theorem initWith_reuse_pool (cpu : Nat) (nm : String) (md : Module α)
    (a : Args α) :
    (SyncPipe.initWith cpu nm md a).reuse_pool = a.reuse_pool := by
  simp only [SyncPipe.initWith]; split <;> rfl

/-- Both constructor branches store the resolved module. -/
theorem initWith_module (cpu : Nat) (nm : String) (md : Module α) (a : Args α) :
    (SyncPipe.initWith cpu nm md a).module = md := by
  simp only [SyncPipe.initWith]; split <;> rfl

/-- A permutation of the outer list of blocks permutes the flattened
result (the multiset of multiplexed items is preserved). -/
theorem flatten_perm {l₁ l₂ : List (List α)} (h : List.Perm l₁ l₂) :
    List.Perm l₁.flatten l₂.flatten := by
  induction h with
  | nil => exact List.Perm.refl _
  | cons x _ ih => simpa using ih.append_left x
  | swap x y t =>
    simp only [List.flatten_cons]
    exact List.perm_append_comm_assoc y x t.flatten
  | trans _ _ ih₁ ih₂ => exact ih₁.trans ih₂

/-! ## C1 — Operator stages ignore the parallel request -/

/-- C1: for an Operator-classified stage (the resolved pipe is not a
processor), requesting `parallel=true` is ignored without error: the
constructor selects the sequential map and creates no pool, and `output`
applies the stage callable once to the entire upstream source, yielding
the same result sequence as with `parallel=false`. -/
theorem C1_operator_parallel_ignored (cpu : Nat) (nm : String)
    (g : List α → List α) (a : Args α) (s : PySeq α)
    (sched : List (List α) → List (List α)) (hs : a.source = some s) :
    (SyncPipe.initWith cpu nm (Module.operator g)
        { a with parallel := true }).mapKind = MapKind.seq ∧
    (SyncPipe.initWith cpu nm (Module.operator g)
        { a with parallel := true }).pool = a.pool ∧
    Except.map Prod.fst
        ((SyncPipe.initWith cpu nm (Module.operator g)
            { a with parallel := true }).output sched)
      = Except.ok (g s.iterate.1) ∧
    Except.map Prod.fst
        ((SyncPipe.initWith cpu nm (Module.operator g)
            { a with parallel := false }).output sched)
      = Except.ok (g s.iterate.1) := by
  obtain ⟨s2, hs2, hfst⟩ := applyListize_iterate a.listize s
  refine ⟨rfl, rfl, ?_, ?_⟩ <;>
    simp [SyncPipe.initWith, Module.isProcessor, SyncPipe.output, hs, hs2,
          iterateE, hfst, Except.map]

/-- Witness for C1: a reverse Operator over `[1, 2, 3]`, chosen parallel
and sequential, produces `[3, 2, 1]` both ways, sequentially, with no
pool. -/
theorem C1_operator_parallel_ignored_witness :
    (SyncPipe.initWith 4 "rev" (Module.operator (fun l : List Nat => l.reverse))
        { ({ source := some (PySeq.list [1, 2, 3]) } : Args Nat) with
          parallel := true }).mapKind = MapKind.seq ∧
    (SyncPipe.initWith 4 "rev" (Module.operator (fun l : List Nat => l.reverse))
        { ({ source := some (PySeq.list [1, 2, 3]) } : Args Nat) with
          parallel := true }).pool = none ∧
    Except.map Prod.fst
        ((SyncPipe.initWith 4 "rev"
            (Module.operator (fun l : List Nat => l.reverse))
            { ({ source := some (PySeq.list [1, 2, 3]) } : Args Nat) with
              parallel := true }).output id)
      = Except.ok [3, 2, 1] ∧
    Except.map Prod.fst
        ((SyncPipe.initWith 4 "rev"
            (Module.operator (fun l : List Nat => l.reverse))
            { ({ source := some (PySeq.list [1, 2, 3]) } : Args Nat) with
              parallel := false }).output id)
      = Except.ok [3, 2, 1] :=
  C1_operator_parallel_ignored 4 "rev" (fun l => l.reverse)
    { source := some (PySeq.list [1, 2, 3]) } (PySeq.list [1, 2, 3]) id rfl

/-! ## C3 — sequential vs ordered / unordered parallel processor runs -/

/-- C3: for a pure per-item Processor stage over the same upstream source,
the sequential path and the ordered-parallel path produce identical output
sequences, and the unordered-parallel path — whose delivery order is the
scheduler's permutation of the submitted result blocks — produces a
permutation (same multiset) of the sequential result. -/
theorem C3_processor_paths (cpu : Nat) (nm : String) (f : α → List α)
    (s : PySeq α) (w cs : Option Nat) (th rp li : Bool)
    (sched : List (List α) → List (List α))
    (hsched : ∀ bs : List (List α), List.Perm (sched bs) bs) :
    Except.map Prod.fst
        ((SyncPipe.initWith cpu nm (Module.processor f)
            { source := some s, workers := w, parallel := false,
              listize := li, threads := th, reuse_pool := rp, pool := none,
              ordered := none, chunksize := cs }).output sched)
      = Except.ok (multiplex (s.iterate.1.map f)) ∧
    Except.map Prod.fst
        ((SyncPipe.initWith cpu nm (Module.processor f)
            { source := some s, workers := w, parallel := true,
              listize := li, threads := th, reuse_pool := rp, pool := none,
              ordered := some true, chunksize := cs }).output sched)
      = Except.ok (multiplex (s.iterate.1.map f)) ∧
    Except.map Prod.fst
        ((SyncPipe.initWith cpu nm (Module.processor f)
            { source := some s, workers := w, parallel := true,
              listize := li, threads := th, reuse_pool := rp, pool := none,
              ordered := none, chunksize := cs }).output sched)
      = Except.ok (multiplex (sched (s.iterate.1.map f))) ∧
    List.Perm (multiplex (sched (s.iterate.1.map f)))
      (multiplex (s.iterate.1.map f)) := by
  obtain ⟨s2, hs2, hfst⟩ := applyListize_iterate li s
  refine ⟨?_, ?_, ?_, flatten_perm (hsched _)⟩ <;>
    simp [SyncPipe.initWith, Module.isProcessor, SyncPipe.output, hs2,
          iterateE, hfst, listpipe, mkPool, multiplex, Except.map]

/-- Witness for C3: the successor stage over `[1, 2]` with the identity
scheduler gives `[2, 3]` on all three paths. -/
theorem C3_processor_paths_witness :
    Except.map Prod.fst
        ((SyncPipe.initWith 4 "incr" (Module.processor incrF)
            { source := some (PySeq.list [1, 2]), workers := none,
              parallel := false, listize := false, threads := true,
              reuse_pool := true, pool := none, ordered := none,
              chunksize := none }).output id)
      = Except.ok [2, 3] ∧
    Except.map Prod.fst
        ((SyncPipe.initWith 4 "incr" (Module.processor incrF)
            { source := some (PySeq.list [1, 2]), workers := none,
              parallel := true, listize := false, threads := true,
              reuse_pool := true, pool := none, ordered := some true,
              chunksize := none }).output id)
      = Except.ok [2, 3] ∧
    Except.map Prod.fst
        ((SyncPipe.initWith 4 "incr" (Module.processor incrF)
            { source := some (PySeq.list [1, 2]), workers := none,
              parallel := true, listize := false, threads := true,
              reuse_pool := true, pool := none, ordered := none,
              chunksize := none }).output id)
      = Except.ok [2, 3] ∧
    List.Perm ([2, 3] : List Nat) [2, 3] :=
  C3_processor_paths 4 "incr" incrF (PySeq.list [1, 2]) none none true true
    false id (fun bs => List.Perm.refl bs)

/-- An executor whose stored source is a re-iterable concrete list and
which is sequential or reuses its pool is left in its initial state by a
successful `output` evaluation. -/
theorem output_stable (p : SyncPipe α) (l : List α)
    (sched : List (List α) → List (List α))
    (hsrc : p.source = some (PySeq.list l))
    (hguard : p.reuse_pool = true ∨ p.parallel = false)
    (r : List α) (p' : SyncPipe α)
    (hx : p.output sched = Except.ok (r, p')) : p' = p := by
  obtain ⟨nm', par, src, th, rp, po, md, w, cs, mk, cr⟩ := p
  simp only at hsrc hguard hx
  subst hsrc
  cases md with
  | processor f =>
    cases par with
    | false =>
      simp [SyncPipe.output, iterateE, PySeq.iterate] at hx
      exact hx.2.symm
    | true =>
      have hrp : rp = true := by
        rcases hguard with h | h
        · exact h
        · exact absurd h (by simp)
      subst hrp
      cases po with
      | none => simp [SyncPipe.output, iterateE, PySeq.iterate] at hx
      | some pl =>
        by_cases hst : pl.state = PoolState.run
        · simp [SyncPipe.output, iterateE, PySeq.iterate, hst] at hx
          exact hx.2.symm
        · simp [SyncPipe.output, iterateE, PySeq.iterate, hst] at hx
  | operator g =>
    simp [SyncPipe.output, iterateE, PySeq.iterate] at hx
    exact hx.2.symm

/-! ## C6 — re-access of `output` re-executes, nothing is cached -/

/-- A sequential successor pipe over a one-shot iterator source. -/
def c6pipe : SyncPipe Nat :=
  SyncPipe.initWith 4 "incr" mdIncr { source := some (PySeq.iter [1, 2]) }

/-- C6 counterexample: on an executor whose upstream source is a one-shot
iterator (exactly what chaining hands downstream), the first `output`
access yields `[2, 3]` but the second access yields `[]` — two successive
accesses of a pure stage on the same executor are NOT equal in general. -/
theorem C6_reaccess_counterexample :
    (c6pipe.output id).map Prod.fst = Except.ok [2, 3] ∧
    ((c6pipe.output id).bind (fun rp => rp.2.output id)).map Prod.fst
      = Except.ok [] ∧
    ([2, 3] : List Nat) ≠ [] :=
  ⟨rfl, rfl, by decide⟩

/-- C6 (amended): `output` is recomputed on every access and never cached;
when the upstream source is a re-iterable concrete list and the executor
is sequential or reuses its pool, a successful access leaves the executor
unchanged, so a second access re-executes the stage and yields the same
result sequence.  (A one-shot iterator source is exhausted by the first
access, and a non-reused pool is closed by it — see the counterexample.) -/
theorem C6_reaccess_same_for_list_source (cpu : Nat) (nm : String)
    (md : Module α) (l : List α) (a : Args α)
    (sched : List (List α) → List (List α)) (r : List α) (p' : SyncPipe α)
    (hsrc : a.source = some (PySeq.list l))
    (hguard : a.reuse_pool = true ∨ a.parallel = false)
    (hout : (SyncPipe.initWith cpu nm md a).output sched = Except.ok (r, p')) :
    (p'.output sched).map Prod.fst = Except.ok r := by
  have hp : p' = SyncPipe.initWith cpu nm md a :=
    output_stable _ l sched
      (by rw [initWith_source, hsrc, applyListize_list])
      (by rw [initWith_reuse_pool, initWith_parallel]; exact hguard)
      r p' hout
  rw [hp, hout]
  rfl

/-- Witness for C6 (amended): a sequential successor pipe over the list
`[1, 2]`; both the first and the re-access produce `[2, 3]`. -/
theorem C6_reaccess_same_for_list_source_witness :
    ((SyncPipe.initWith 4 "incr" mdIncr
        { source := some (PySeq.list [1, 2]) } : SyncPipe Nat).output id).map
        Prod.fst = Except.ok [2, 3] :=
  C6_reaccess_same_for_list_source 4 "incr" mdIncr [1, 2]
    { source := some (PySeq.list [1, 2]) } id [2, 3]
    (SyncPipe.initWith 4 "incr" mdIncr { source := some (PySeq.list [1, 2]) })
    rfl (Or.inl rfl) rfl

/-! ## C2 — pool lifecycle -/

/-- A parallel successor pipe whose pool was SUPPLIED by the caller while
`reuse_pool` is disabled. -/
def c2pipe : SyncPipe Nat :=
  SyncPipe.initWith 4 "incr" mdIncr
    { source := some (PySeq.list [1, 2]), parallel := true,
      reuse_pool := false, pool := some (mkPool true 2) }

/-- C2 counterexample: an executor that was SUPPLIED its pool (so
`createdPool = false` — it does not own it) nevertheless closes and joins
that borrowed pool during `output` when `reuse_pool=False`: closing is
guarded by the reuse flag, not by ownership, contradicting "never by an
executor the pool was supplied to". -/
theorem C2_close_by_non_owner_counterexample :
    c2pipe.createdPool = false ∧
    (c2pipe.output id).map (fun rp => poolStats rp.2.pool)
      = Except.ok (some (1, 1, PoolState.closed)) :=
  ⟨rfl, rfl⟩

/-- C2 (amended): whether `output` closes and joins the pool is governed
by the `reuse_pool` flag (for a parallel Processor stage), not by
ownership.  When the executor owns its pool (none was passed in) and
`reuse_pool=False`, a single `output` evaluation closes and joins it
exactly once and a second evaluation fails on the closed pool, so the
owned pool's lifetime is scoped to one `output` evaluation; with
`reuse_pool=True` the pool is left running, never closed. -/
theorem C2_pool_lifecycle (cpu : Nat) (nm : String) (f : α → List α)
    (l : List α) (w cs : Option Nat) (th li : Bool) (od : Option Bool)
    (sched : List (List α) → List (List α)) :
    (SyncPipe.initWith cpu nm (Module.processor f)
        { source := some (PySeq.list l), workers := w, parallel := true,
          listize := li, threads := th, reuse_pool := false, pool := none,
          ordered := od, chunksize := cs }).createdPool = true ∧
    ((SyncPipe.initWith cpu nm (Module.processor f)
        { source := some (PySeq.list l), workers := w, parallel := true,
          listize := li, threads := th, reuse_pool := false, pool := none,
          ordered := od, chunksize := cs }).output sched).map
        (fun rp => poolStats rp.2.pool)
      = Except.ok (some (1, 1, PoolState.closed)) ∧
    (((SyncPipe.initWith cpu nm (Module.processor f)
        { source := some (PySeq.list l), workers := w, parallel := true,
          listize := li, threads := th, reuse_pool := false, pool := none,
          ordered := od, chunksize := cs }).output sched).bind
        (fun rp => rp.2.output sched)).isOk = false ∧
    ((SyncPipe.initWith cpu nm (Module.processor f)
        { source := some (PySeq.list l), workers := w, parallel := true,
          listize := li, threads := th, reuse_pool := true, pool := none,
          ordered := od, chunksize := cs }).output sched).map
        (fun rp => poolStats rp.2.pool)
      = Except.ok (some (0, 0, PoolState.run)) := by
  refine ⟨rfl, ?_, ?_, ?_⟩ <;>
    simp [SyncPipe.initWith, Module.isProcessor, SyncPipe.output,
          applyListize_list, iterateE, PySeq.iterate, mkPool, Pool.close,
          Pool.join, poolStats, Except.map, Except.isOk, Except.toBool,
          Except.bind]

/-- Witness for C2 (amended) at a concrete owned-pool pipe. -/
theorem C2_pool_lifecycle_witness :
    (SyncPipe.initWith 4 "incr" (Module.processor incrF)
        { source := some (PySeq.list [1, 2]), workers := none,
          parallel := true, listize := false, threads := true,
          reuse_pool := false, pool := none, ordered := none,
          chunksize := none }).createdPool = true ∧
    ((SyncPipe.initWith 4 "incr" (Module.processor incrF)
        { source := some (PySeq.list [1, 2]), workers := none,
          parallel := true, listize := false, threads := true,
          reuse_pool := false, pool := none, ordered := none,
          chunksize := none }).output id).map (fun rp => poolStats rp.2.pool)
      = Except.ok (some (1, 1, PoolState.closed)) ∧
    (((SyncPipe.initWith 4 "incr" (Module.processor incrF)
        { source := some (PySeq.list [1, 2]), workers := none,
          parallel := true, listize := false, threads := true,
          reuse_pool := false, pool := none, ordered := none,
          chunksize := none }).output id).bind
        (fun rp => rp.2.output id)).isOk = false ∧
    ((SyncPipe.initWith 4 "incr" (Module.processor incrF)
        { source := some (PySeq.list [1, 2]), workers := none,
          parallel := true, listize := false, threads := true,
          reuse_pool := true, pool := none, ordered := none,
          chunksize := none }).output id).map (fun rp => poolStats rp.2.pool)
      = Except.ok (some (0, 0, PoolState.run)) :=
  C2_pool_lifecycle 4 "incr" incrF [1, 2] none none true false none id

/-! ## C4 — fluent chaining -/

/-- A sequential successor pipe over the list `[1, 2]`. -/
def c4pipe : SyncPipe Nat :=
  SyncPipe.initWith 4 "incr" mdIncr { source := some (PySeq.list [1, 2]) }

/-- C4 counterexample: the upstream source stored in the chained executor
is a one-shot iterator over the prior output, NOT a fully realized
(concrete, re-iterable) sequence as the claim asserts. -/
theorem C4_chain_source_lazy_counterexample :
    (c4pipe.chain regDemo 4 id "incr").map (fun q => q.source)
      = Except.ok (some (PySeq.iter [2, 3])) ∧
    (c4pipe.chain regDemo 4 id "incr").map (fun q => isMaterialized q.source)
      = Except.ok false :=
  ⟨rfl, rfl⟩

/-- C4 (amended): fluent chaining evaluates the prior executor's `output`
and stores the resulting sequence in the next executor as a one-shot
iterator (not a materialized list), propagating the parallel, threads,
workers and pool-reuse settings, with the pool handle passed along only
when the reuse policy is enabled and omitted (None) otherwise. -/
theorem C4_chain_propagates (registry : String → Option (Module α))
    (cpu : Nat) (sched : List (List α) → List (List α)) (p : SyncPipe α)
    (nm : String) (md : Module α) (r : List α) (p' : SyncPipe α)
    (hreg : registry nm = some md)
    (hout : p.output sched = Except.ok (r, p')) :
    p.chain registry cpu sched nm
      = Except.ok (SyncPipe.initWith cpu nm md (chainArgs p r)) ∧
    (SyncPipe.initWith cpu nm md (chainArgs p r)).source
      = some (PySeq.iter r) ∧
    isMaterialized (SyncPipe.initWith cpu nm md (chainArgs p r)).source
      = false ∧
    (SyncPipe.initWith cpu nm md (chainArgs p r)).parallel = p.parallel ∧
    (SyncPipe.initWith cpu nm md (chainArgs p r)).threads = p.threads ∧
    (SyncPipe.initWith cpu nm md (chainArgs p r)).reuse_pool = p.reuse_pool ∧
    (chainArgs p r).workers = p.workers ∧
    (chainArgs p r).pool = (if p.reuse_pool then p.pool else none) := by
  refine ⟨?_, ?_, ?_, ?_, ?_, ?_, rfl, rfl⟩
  · simp [SyncPipe.chain, SyncPipe.init, hout, hreg]
  · rw [initWith_source]; rfl
  · rw [initWith_source]; rfl
  · rw [initWith_parallel]; rfl
  · rw [initWith_threads]; rfl
  · rw [initWith_reuse_pool]; rfl

/-- Witness for C4 (amended): chaining the concrete successor pipe to a
second `incr` stage. -/
theorem C4_chain_propagates_witness :
    c4pipe.chain regDemo 4 id "incr"
      = Except.ok (SyncPipe.initWith 4 "incr" mdIncr (chainArgs c4pipe [2, 3])) ∧
    (SyncPipe.initWith 4 "incr" mdIncr (chainArgs c4pipe [2, 3])).source
      = some (PySeq.iter [2, 3]) ∧
    isMaterialized
        (SyncPipe.initWith 4 "incr" mdIncr (chainArgs c4pipe [2, 3])).source
      = false ∧
    (SyncPipe.initWith 4 "incr" mdIncr (chainArgs c4pipe [2, 3])).parallel
      = c4pipe.parallel ∧
    (SyncPipe.initWith 4 "incr" mdIncr (chainArgs c4pipe [2, 3])).threads
      = c4pipe.threads ∧
    (SyncPipe.initWith 4 "incr" mdIncr (chainArgs c4pipe [2, 3])).reuse_pool
      = c4pipe.reuse_pool ∧
    (chainArgs c4pipe [2, 3]).workers = c4pipe.workers ∧
    (chainArgs c4pipe [2, 3]).pool
      = (if c4pipe.reuse_pool then c4pipe.pool else none) :=
  C4_chain_propagates regDemo 4 id c4pipe "incr" mdIncr [2, 3] c4pipe rfl rfl

end Riko
